/-
Verification of the MobileNoteApp geofencing / notification core.

Shallow embedding of:
  - NotificationService.scheduleNotification   (src/src/services/NotesService.ts, 290-333)
  - NotificationService.formatNotificationTime (src/src/services/NotesService.ts, 509-530)
  - GeofencingService start/stop lifecycle     (src/src/services/GeofencingService.ts, 15-69)
  - LocationService monitoring lifecycle       (src/unnamed/part_000, 137-184)
  - LocationService.calculateDistance / checkGeofences (src/unnamed/part_000, 114-221)
  - GeofencingService evaluation pass          (src/src/services/GeofencingService.ts, 87-193)

Times are modelled as integer milliseconds since the epoch (JS Date.getTime()).
JS `Math.floor` on an exact integer division is `Int.fdiv`.  JS numbers in the
distance computation are modelled as real numbers.
-/
import Mathlib

namespace MobileNoteApp

/-! ## Notification scheduling (NotesService.ts 290-333) -/

/-- `NotificationData` from src/unnamed/part_002 (types): `scheduledDate` is a JS
`Date`, modelled as epoch milliseconds.  (`id` and `data` do not affect the
scheduling logic and are omitted from the model's observable output.) -/
structure NotificationData where
  id : String
  title : String
  body : String
  scheduledDate : Int
  deriving Repr, DecidableEq

/-- The request passed to the external notification service by
`Notifications.scheduleNotificationAsync`: a TIME_INTERVAL trigger of
`seconds` seconds. -/
structure ScheduledRequest where
  title : String
  body : String
  seconds : Int
  deriving Repr, DecidableEq

/-- `NotificationService.scheduleNotification` (NotesService.ts 290-333).
The two internal `throw`s are caught by the function's own catch block
(lines 323-331) which returns `null`; so the observable behaviour is an
`Option`: `none` = rejected with no request issued, `some req` = exactly one
request issued to the external service.  A JS `Date` object is always truthy,
so the `!notificationData.scheduledDate` guard reduces to the title check.
`seconds` is `Math.floor((scheduledDate.getTime() - Date.now()) / 1000)`. -/
def scheduleNotification (now : Int) (notificationData : NotificationData) :
    Option ScheduledRequest :=
  if notificationData.title = "" then none
  else if notificationData.scheduledDate ≤ now then none
  else some { title := notificationData.title
              body := notificationData.body
              seconds := Int.fdiv (notificationData.scheduledDate - now) 1000 }

/-! ## Countdown formatting (NotesService.ts 509-530) -/

/-- `NotificationService.formatNotificationTime` (NotesService.ts 509-530).
`diffInMinutes = Math.floor((date - now) / 60000)`; buckets: negative →
"Past due", < 60 → minutes, < 24 h → hours, else days; plural "s" unless the
count is exactly 1. -/
def formatNotificationTime (now date : Int) : String :=
  let diffInMinutes := Int.fdiv (date - now) 60000
  if diffInMinutes < 0 then
    "Past due"
  else if diffInMinutes < 60 then
    "In " ++ toString diffInMinutes ++ " minute" ++
      (if diffInMinutes ≠ 1 then "s" else "")
  else
    let diffInHours := Int.fdiv diffInMinutes 60
    if diffInHours < 24 then
      "In " ++ toString diffInHours ++ " hour" ++
        (if diffInHours ≠ 1 then "s" else "")
    else
      let diffInDays := Int.fdiv diffInHours 24
      "In " ++ toString diffInDays ++ " day" ++
        (if diffInDays ≠ 1 then "s" else "")

/-! ## Monitor lifecycle (GeofencingService.ts 15-69, part_000 137-184)

The static fields of `GeofencingService` and `LocationService`, together with
the externally observable resources (live `watchPositionAsync` subscriptions
and live `setInterval` timers), form one system state.  `nextHandle` supplies
fresh opaque handles. -/

structure SysState where
  isActive : Bool
  checkInterval : Option Nat
  lastNotifiedNotes : Finset String
  watchId : Option Nat
  isMonitoring : Bool
  activeWatches : Nat
  activeTimers : Nat
  nextHandle : Nat
  deriving DecidableEq

/-- External environment queried during start-up: whether device location
services are enabled (`Location.hasServicesEnabledAsync`) and whether the
foreground permission request is granted. -/
structure Env where
  locationEnabled : Bool
  permissionGranted : Bool
  deriving DecidableEq

/-- `LocationService.requestLocationPermission` (part_000 14-42): returns true
iff the foreground permission is granted; the background request only shows an
alert and never changes the result. -/
def requestLocationPermission (env : Env) : Bool :=
  env.permissionGranted

/-- `LocationService.startLocationMonitoring` (part_000 137-168): no-op
returning true when already monitoring; false without permission; otherwise
starts one `watchPositionAsync` subscription and records its handle. -/
def startLocationMonitoring (env : Env) (s : SysState) : Bool × SysState :=
  if s.isMonitoring then (true, s)
  else if requestLocationPermission env = false then (false, s)
  else (true, { s with watchId := some s.nextHandle
                       isMonitoring := true
                       activeWatches := s.activeWatches + 1
                       nextHandle := s.nextHandle + 1 })

/-- `LocationService.stopLocationMonitoring` (part_000 173-184): release the
subscription if present; always clear `isMonitoring`. -/
def stopLocationMonitoring (s : SysState) : SysState :=
  match s.watchId with
  | some _ => { s with watchId := none
                       activeWatches := s.activeWatches - 1
                       isMonitoring := false }
  | none => { s with isMonitoring := false }

/-- `GeofencingService.startGeofencing` (GeofencingService.ts 15-49): no-op
returning true when already active; false when location services are disabled;
otherwise start monitoring, and on success mark active and start the
120-second periodic timer. -/
def startGeofencing (env : Env) (s : SysState) : Bool × SysState :=
  if s.isActive then (true, s)
  else if env.locationEnabled = false then (false, s)
  else
    let r := startLocationMonitoring env s
    if r.1 then
      (r.1, { r.2 with isActive := true
                       checkInterval := some r.2.nextHandle
                       activeTimers := r.2.activeTimers + 1
                       nextHandle := r.2.nextHandle + 1 })
    else (r.1, r.2)

/-- `GeofencingService.stopGeofencing` (GeofencingService.ts 54-69): stop
monitoring, cancel the timer if present, clear active flag and the dedup set.
The try/catch means no error ever reaches the caller; the embedding is a total
function. -/
def stopGeofencing (s : SysState) : SysState :=
  let s1 := stopLocationMonitoring s
  let s2 :=
    match s1.checkInterval with
    | some _ => { s1 with checkInterval := none
                          activeTimers := s1.activeTimers - 1 }
    | none => s1
  { s2 with isActive := false, lastNotifiedNotes := ∅ }

/-! ## Distance math and geofence check (part_000 114-221) -/

open scoped Classical in
/-- JS `Math.atan2(y, x)` on real arguments: `arctan (y/x)` adjusted by
quadrant; on the positive y-axis it is `π/2`, on the negative y-axis `-π/2`,
and `atan2 0 0 = 0`. -/
noncomputable def atan2 (y x : ℝ) : ℝ :=
  if 0 < x then Real.arctan (y / x)
  else if x < 0 then
    (if 0 ≤ y then Real.arctan (y / x) + Real.pi
     else Real.arctan (y / x) - Real.pi)
  else
    if 0 < y then Real.pi / 2
    else if y < 0 then -(Real.pi / 2)
    else 0

/-- `LocationService.calculateDistance` (part_000 114-132): haversine
great-circle distance in meters, Earth radius 6371e3.  JS doubles are
modelled as reals. -/
noncomputable def calculateDistance (lat1 lon1 lat2 lon2 : ℝ) : ℝ :=
  let R : ℝ := 6371000
  let phi1 := lat1 * Real.pi / 180
  let phi2 := lat2 * Real.pi / 180
  let dphi := (lat2 - lat1) * Real.pi / 180
  let dlam := (lon2 - lon1) * Real.pi / 180
  let a := Real.sin (dphi / 2) * Real.sin (dphi / 2) +
      Real.cos phi1 * Real.cos phi2 * Real.sin (dlam / 2) * Real.sin (dlam / 2)
  let c := 2 * atan2 (Real.sqrt a) (Real.sqrt (1 - a))
  R * c

/-- JS `Math.round` (used on the distance at part_000 line 215):
`⌊x + 1/2⌋`. -/
noncomputable def jsRound (x : ℝ) : ℤ :=
  ⌊x + 1 / 2⌋

/-- `LocationData` from src/unnamed/part_002 (types): a geofence target's
center, optional display address, and radius in meters. -/
structure LocationData where
  latitude : ℝ
  longitude : ℝ
  address : Option String := none
  radius : ℝ
  deriving Inhabited

/-- The `coords` of a `Location.LocationObject`: the fields the geofencing
code reads. -/
structure Coords where
  latitude : ℝ
  longitude : ℝ
  deriving Inhabited

/-- An element of the `noteLocations` array built at GeofencingService.ts
100-104. -/
structure NoteLocationEntry where
  noteId : String
  location : LocationData
  noteTitle : String
  deriving Inhabited

/-- An element of the `triggeredNotes` array returned by
`LocationService.checkGeofences`. -/
structure TriggeredNote where
  noteId : String
  noteTitle : String
  distance : ℤ
  deriving Inhabited

open scoped Classical in
/-- `LocationService.checkGeofences` (part_000 189-221): keep, in order, every
entry whose distance from the current location is `≤` its radius, with the
distance rounded. -/
noncomputable def checkGeofences (currentLocation : Coords) :
    List NoteLocationEntry → List TriggeredNote
  | [] => []
  | nl :: rest =>
    let distance := calculateDistance currentLocation.latitude
        currentLocation.longitude nl.location.latitude nl.location.longitude
    if distance ≤ nl.location.radius then
      { noteId := nl.noteId, noteTitle := nl.noteTitle
        distance := jsRound distance } :: checkGeofences currentLocation rest
    else
      checkGeofences currentLocation rest

/-! ## Evaluation pass (GeofencingService.ts 87-193) -/

/-- The fields of `Note` (src/unnamed/part_002) read by the geofencing pass. -/
structure Note where
  id : String
  title : String
  location : Option LocationData
  deriving Inhabited

/-- Outcome of a `NotificationService.scheduleLocationNotification` call:
a notification id, a `null` id, or a thrown error. -/
inductive EmitResult
  | ok (notificationId : String)
  | nullId
  | thrown

/-- A call made to `NotificationService.scheduleLocationNotification`
(the emission of one proximity notification). -/
structure Emission where
  noteId : String
  noteTitle : String
  distance : ℤ
  deriving DecidableEq

/-- `GeofencingService.handleGeofenceTriggered` (GeofencingService.ts
132-162), with the external emission outcome supplied by `emit`.  A note
already in `lastNotifiedNotes` is skipped.  Otherwise the id is added
*before* the emission; whatever the outcome — a real id, `null`, or a throw
caught at line 159-161 — the added id stays in the set. -/
def handleGeofenceTriggered (emit : String → EmitResult)
    (triggered : TriggeredNote) (st : Finset String) :
    Finset String × Option Emission :=
  if triggered.noteId ∈ st then (st, none)
  else
    let st' := insert triggered.noteId st
    let e : Emission := { noteId := triggered.noteId
                          noteTitle := triggered.noteTitle
                          distance := triggered.distance }
    match emit triggered.noteId with
    | .ok _ => (st', some e)
    | .nullId => (st', some e)
    | .thrown => (st', some e)

/-- The `for (const triggered of triggeredNotes)` loop at GeofencingService.ts
113-115, threading the dedup set and collecting the emissions. -/
def processTriggered (emit : String → EmitResult) :
    List TriggeredNote → Finset String → Finset String × List Emission
  | [], st => (st, [])
  | t :: rest, st =>
    let r1 := handleGeofenceTriggered emit t st
    let r2 := processTriggered emit rest r1.1
    (r2.1, r1.2.toList ++ r2.2)

open scoped Classical in
/-- `GeofencingService.checkGeofencesForLocation` (GeofencingService.ts
87-127): filter notes to those with a location; if none, return unchanged;
otherwise evaluate the geofences, handle each triggered note, then delete
from the dedup set every id not triggered this pass.  Returns the new dedup
set and the emissions of this pass. -/
noncomputable def checkGeofencesForLocation (emit : String → EmitResult)
    (location : Coords) (allNotes : List Note) (st : Finset String) :
    Finset String × List Emission :=
  let notesWithLocations := allNotes.filter (fun note => note.location.isSome)
  if notesWithLocations.length = 0 then (st, [])
  else
    let noteLocations := notesWithLocations.map (fun note =>
      { noteId := note.id, location := note.location.getD default
        noteTitle := note.title : NoteLocationEntry })
    let triggeredNotes := checkGeofences location noteLocations
    let r := processTriggered emit triggeredNotes st
    let triggeredNoteIds := (triggeredNotes.map (fun t => t.noteId)).toFinset
    (r.1.filter (fun noteId => noteId ∈ triggeredNoteIds), r.2)

/-- `GeofencingService.checkAllGeofences` (GeofencingService.ts 167-193):
the periodic poll pass.  `currentLocation` is the result of
`LocationService.getCurrentLocation` (part_000 47-109), which returns `null`
on permission failure or a failed fix; in that case the pass returns at once.
Otherwise the fix is converted to a `LocationObject` and evaluated. -/
noncomputable def checkAllGeofences (emit : String → EmitResult)
    (currentLocation : Option LocationData) (allNotes : List Note)
    (st : Finset String) : Finset String × List Emission :=
  match currentLocation with
  | none => (st, [])
  | some loc =>
      checkGeofencesForLocation emit
        { latitude := loc.latitude, longitude := loc.longitude } allNotes st

/-- A sequence of push-driven evaluation passes
(`handleLocationUpdate` → `checkGeofencesForLocation`), threading the dedup
set and concatenating the emissions. -/
noncomputable def runPasses (emit : String → EmitResult) (allNotes : List Note) :
    List Coords → Finset String → Finset String × List Emission
  | [], st => (st, [])
  | loc :: rest, st =>
    let r1 := checkGeofencesForLocation emit loc allNotes st
    let r2 := runPasses emit allNotes rest r1.1
    (r2.1, r1.2 ++ r2.2)

/-! ## Concrete fixtures used to instantiate the theorems -/

/-- Environment with location services enabled and permission granted. -/
def envW : Env :=
  { locationEnabled := true, permissionGranted := true }

/-- Fresh system state: inactive, nothing monitored, empty dedup set. -/
def s0W : SysState :=
  { isActive := false, checkInterval := none, lastNotifiedNotes := ∅
    watchId := none, isMonitoring := false, activeWatches := 0
    activeTimers := 0, nextHandle := 0 }

/-- Emission oracle where every notification succeeds. -/
def emitW : String → EmitResult :=
  fun _ => EmitResult.ok "n1"

/-- A geofence target centered at (0, 0) with a 50 m radius. -/
def locW : LocationData :=
  { latitude := 0, longitude := 0, address := none, radius := 50 }

/-- A note carrying the target `locW`. -/
def noteW : Note :=
  { id := "note-1", title := "Groceries", location := some locW }

/-- A position at the target's center (distance 0, inside). -/
def pInW : Coords :=
  { latitude := 0, longitude := 0 }

/-- A position on the opposite side of the Earth (distance 6371000·π m,
outside). -/
def pOutW : Coords :=
  { latitude := 0, longitude := 180 }

/-! ## Helper lemmas -/

lemma atan2_zero_one : atan2 0 1 = 0 := by
  unfold atan2
  rw [if_pos one_pos]
  norm_num [Real.arctan_zero]

lemma atan2_one_zero : atan2 1 0 = Real.pi / 2 := by
  unfold atan2
  rw [if_neg (lt_irrefl 0), if_neg (lt_irrefl 0), if_pos one_pos]

lemma calculateDistance_self (lat lon : ℝ) :
    calculateDistance lat lon lat lon = 0 := by
  simp only [calculateDistance]
  have h1 : (lat - lat) * Real.pi / 180 / 2 = 0 := by ring
  have h2 : (lon - lon) * Real.pi / 180 / 2 = 0 := by ring
  rw [h1, h2, Real.sin_zero]
  norm_num [Real.sqrt_zero, Real.sqrt_one, atan2_zero_one]

lemma calculateDistance_antipode :
    calculateDistance 0 180 0 0 = 6371000 * Real.pi := by
  simp only [calculateDistance]
  have e1 : ((0 : ℝ) - 0) * Real.pi / 180 / 2 = 0 := by ring
  have e2 : ((0 : ℝ) - 180) * Real.pi / 180 / 2 = -(Real.pi / 2) := by ring
  have e3 : (0 : ℝ) * Real.pi / 180 = 0 := by ring
  rw [e1, e2, e3, Real.sin_zero, Real.sin_neg, Real.sin_pi_div_two,
    Real.cos_zero]
  norm_num [Real.sqrt_zero, Real.sqrt_one, atan2_one_zero]
  ring

/-! ## Claim theorems -/

/-- C7: `scheduleNotification` with a target time at or before `now` returns
`none` (a rejected result, not an exception — the internal throw is caught)
and issues no request; with a strictly future target time (and a non-empty
title) it issues one request whose delay is
`floor((targetTime - now) / 1000)` seconds. -/
theorem scheduleNotification_past_rejected (now : Int)
    (nd : NotificationData) :
    (nd.scheduledDate ≤ now → scheduleNotification now nd = none) ∧
    (now < nd.scheduledDate → nd.title ≠ "" →
      scheduleNotification now nd =
        some { title := nd.title, body := nd.body
               seconds := Int.fdiv (nd.scheduledDate - now) 1000 }) := by
  constructor
  · intro h
    by_cases ht : nd.title = "" <;> simp [scheduleNotification, ht, h]
  · intro h ht
    simp [scheduleNotification, ht, not_le.mpr h]

/-- Witness for C7: at `now = 1000` ms, a target of `999` ms (now − 1 ms) is
rejected with no request; a target of `5500` ms is scheduled with a 4-second
delay. -/
theorem scheduleNotification_past_rejected_witness :
    ((999 : Int) ≤ 1000 ∧
      scheduleNotification 1000
        { id := "i", title := "T", body := "B", scheduledDate := 999 } =
          none) ∧
    ((1000 : Int) < 5500 ∧ ("T" : String) ≠ "" ∧
      scheduleNotification 1000
        { id := "i", title := "T", body := "B", scheduledDate := 5500 } =
          some { title := "T", body := "B"
                 seconds := Int.fdiv (5500 - 1000) 1000 }) :=
  ⟨⟨by decide,
    (scheduleNotification_past_rejected 1000
      { id := "i", title := "T", body := "B", scheduledDate := 999 }).1
      (by decide)⟩,
   ⟨by decide, by decide,
    (scheduleNotification_past_rejected 1000
      { id := "i", title := "T", body := "B", scheduledDate := 5500 }).2
      (by decide) (by decide)⟩⟩

/-- C8: `formatNotificationTime` puts every target within the next minute
(in particular one 30 seconds from now) in the sub-minute bucket, whose text
is "In 0 minutes", and every target strictly in the past in the "Past due"
bucket. -/
theorem formatNotificationTime_buckets (now t : Int) :
    (now ≤ t → t - now < 60000 →
      formatNotificationTime now t = "In 0 minutes") ∧
    (formatNotificationTime now (now + 30000) = "In 0 minutes") ∧
    (t < now → formatNotificationTime now t = "Past due") := by
  have sub60 : ∀ u : Int, now ≤ u → u - now < 60000 →
      formatNotificationTime now u = "In 0 minutes" := by
    intro u h1 h2
    have h0 : Int.fdiv (u - now) 60000 = 0 := by
      rw [Int.fdiv_eq_ediv _ (by norm_num)]
      exact Int.ediv_eq_zero_of_lt (by omega) h2
    simp only [formatNotificationTime, h0]
    rfl
  refine ⟨sub60 t, sub60 (now + 30000) (by omega) (by omega), ?_⟩
  intro h
  have hneg : Int.fdiv (t - now) 60000 < 0 := by
    rw [Int.fdiv_eq_ediv _ (by norm_num)]
    exact Int.ediv_neg' (by omega) (by norm_num)
  simp [formatNotificationTime, hneg]

/-- Witness for C8: at `now = 0`, a target 30 s ahead formats as
"In 0 minutes" and a target 5 min in the past formats as "Past due". -/
theorem formatNotificationTime_buckets_witness :
    ((0 : Int) ≤ 30000 ∧ (30000 : Int) - 0 < 60000 ∧
      formatNotificationTime 0 30000 = "In 0 minutes") ∧
    ((-300000 : Int) < 0 ∧ formatNotificationTime 0 (-300000) = "Past due") :=
  ⟨⟨by decide, by decide,
    (formatNotificationTime_buckets 0 30000).1 (by decide) (by decide)⟩,
   ⟨by decide, (formatNotificationTime_buckets 0 (-300000)).2.2 (by decide)⟩⟩

/-- C5: starting from a fresh inactive state with location services enabled
and permission granted, `startGeofencing` returns true; a second call is a
no-op that also returns true and leaves the state unchanged, so exactly one
watch subscription and one periodic timer are live. -/
theorem startGeofencing_idempotent (env : Env) (s : SysState)
    (hEnab : env.locationEnabled = true)
    (hPerm : env.permissionGranted = true)
    (hAct : s.isActive = false) (hMon : s.isMonitoring = false)
    (hW : s.activeWatches = 0) (hT : s.activeTimers = 0) :
    (startGeofencing env s).1 = true ∧
    (startGeofencing env (startGeofencing env s).2).1 = true ∧
    (startGeofencing env (startGeofencing env s).2).2 =
      (startGeofencing env s).2 ∧
    (startGeofencing env (startGeofencing env s).2).2.activeWatches = 1 ∧
    (startGeofencing env (startGeofencing env s).2).2.activeTimers = 1 := by
  simp [startGeofencing, startLocationMonitoring, requestLocationPermission,
    hEnab, hPerm, hAct, hMon, hW, hT]

/-- Witness for C5: the fresh state `s0W` under `envW`, with both start
results true and one live watch and timer after the double start. -/
theorem startGeofencing_idempotent_witness :
    envW.locationEnabled = true ∧ envW.permissionGranted = true ∧
    s0W.isActive = false ∧ s0W.isMonitoring = false ∧
    s0W.activeWatches = 0 ∧ s0W.activeTimers = 0 ∧
    ((startGeofencing envW s0W).1 = true ∧
     (startGeofencing envW (startGeofencing envW s0W).2).1 = true ∧
     (startGeofencing envW (startGeofencing envW s0W).2).2 =
       (startGeofencing envW s0W).2 ∧
     (startGeofencing envW (startGeofencing envW s0W).2).2.activeWatches = 1 ∧
     (startGeofencing envW (startGeofencing envW s0W).2).2.activeTimers = 1) :=
  ⟨rfl, rfl, rfl, rfl, rfl, rfl,
   startGeofencing_idempotent envW s0W rfl rfl rfl rfl rfl rfl⟩

/-- C6: after `stopGeofencing` the monitor is inactive, the watch
subscription handle and the timer handle are released, and the dedup set is
empty; the embedding is a total function (the source's try/catch means no
teardown error reaches the caller); and a `startGeofencing` immediately
after the stop still has an empty dedup set, whatever the environment says. -/
theorem stopGeofencing_resets (s : SysState) (env : Env) :
    (stopGeofencing s).isActive = false ∧
    (stopGeofencing s).isMonitoring = false ∧
    (stopGeofencing s).watchId = none ∧
    (stopGeofencing s).checkInterval = none ∧
    (stopGeofencing s).lastNotifiedNotes = ∅ ∧
    (startGeofencing env (stopGeofencing s)).2.lastNotifiedNotes = ∅ := by
  unfold stopGeofencing stopLocationMonitoring startGeofencing
    startLocationMonitoring requestLocationPermission
  obtain ⟨enb, perm⟩ := env
  cases hw : s.watchId <;> cases hc : s.checkInterval <;>
    cases enb <;> cases perm <;> simp [hw, hc]

/-- C4: a poll pass whose one-shot position fix failed
(`getCurrentLocation` returned null) performs no evaluation: the dedup set
is returned unchanged and no notification is emitted. -/
theorem checkAllGeofences_failed_fix (emit : String → EmitResult)
    (allNotes : List Note) (st : Finset String) :
    checkAllGeofences emit none allNotes st = (st, []) :=
  rfl

/-- C3: when the fetched target list has no note with a location, the
evaluation pass returns the dedup set unchanged and emits nothing (it does
not clear dedup entries). -/
theorem checkGeofencesForLocation_empty_targets (emit : String → EmitResult)
    (location : Coords) (allNotes : List Note) (st : Finset String)
    (h : allNotes.filter (fun note => note.location.isSome) = []) :
    checkGeofencesForLocation emit location allNotes st = (st, []) := by
  simp [checkGeofencesForLocation, h]

/-- Witness for C3: an empty note list with a non-empty dedup set: the pass
leaves the entry "a" in the set and emits nothing. -/
theorem checkGeofencesForLocation_empty_targets_witness :
    (([] : List Note).filter (fun note => note.location.isSome) = []) ∧
    checkGeofencesForLocation emitW { latitude := 0, longitude := 0 } []
        ({"a"} : Finset String) = (({"a"} : Finset String), []) :=
  ⟨rfl, checkGeofencesForLocation_empty_targets emitW
    { latitude := 0, longitude := 0 } [] ({"a"} : Finset String) rfl⟩

/-- C10: `handleGeofenceTriggered` adds the note id to the dedup set before
the emission is attempted, so for every emission outcome — a real id, a null
id, or a throw caught by the handler — the resulting set is
`insert noteId st`; an emission is attempted only when the id was not
already present; and a second call for the same id (after any first call,
under any outcomes) attempts no emission: a failed emission is not retried
while the target keeps triggering. -/
theorem handleGeofenceTriggered_dedup (emit emit1 : String → EmitResult)
    (t : TriggeredNote) (st : Finset String) :
    (handleGeofenceTriggered emit t st).1 = insert t.noteId st ∧
    (handleGeofenceTriggered emit t st).2 =
      (if t.noteId ∈ st then none
       else some { noteId := t.noteId, noteTitle := t.noteTitle
                   distance := t.distance }) ∧
    (handleGeofenceTriggered emit t
        ((handleGeofenceTriggered emit1 t st).1)).2 = none := by
  unfold handleGeofenceTriggered
  by_cases h : t.noteId ∈ st
  · cases emit t.noteId <;> cases emit1 t.noteId <;>
      simp [h, Finset.insert_eq_self.mpr h]
  · cases emit t.noteId <;> cases emit1 t.noteId <;> simp [h]

/-- C9: the haversine distance is symmetric in its two coordinates — exactly,
hence in particular within any 1e-6 relative tolerance — and the distance
from a coordinate to itself is 0. -/
theorem calculateDistance_symm_and_self :
    (∀ lat1 lon1 lat2 lon2 : ℝ,
      calculateDistance lat1 lon1 lat2 lon2 =
        calculateDistance lat2 lon2 lat1 lon1) ∧
    (∀ lat lon : ℝ, calculateDistance lat lon lat lon = 0) := by
  refine ⟨?_, calculateDistance_self⟩
  intro lat1 lon1 lat2 lon2
  simp only [calculateDistance]
  have e1 : (lat1 - lat2) * Real.pi / 180 / 2 =
      -((lat2 - lat1) * Real.pi / 180 / 2) := by ring
  have e2 : (lon1 - lon2) * Real.pi / 180 / 2 =
      -((lon2 - lon1) * Real.pi / 180 / 2) := by ring
  rw [e1, e2, Real.sin_neg, Real.sin_neg]
  ring_nf

/-- C2: with a single target, the evaluation of `checkGeofences` returns the
target's entry iff the haversine distance from the current position to the
target's center is `≤` its radius (so a position exactly at the radius is
triggered), and returns nothing iff the distance strictly exceeds the radius. -/
theorem checkGeofences_trigger_iff (cur : Coords) (nl : NoteLocationEntry) :
    (checkGeofences cur [nl] =
        [{ noteId := nl.noteId, noteTitle := nl.noteTitle
           distance := jsRound (calculateDistance cur.latitude cur.longitude
             nl.location.latitude nl.location.longitude) }] ↔
      calculateDistance cur.latitude cur.longitude nl.location.latitude
          nl.location.longitude ≤ nl.location.radius) ∧
    (checkGeofences cur [nl] = [] ↔
      nl.location.radius < calculateDistance cur.latitude cur.longitude
          nl.location.latitude nl.location.longitude) := by
  by_cases h : calculateDistance cur.latitude cur.longitude
      nl.location.latitude nl.location.longitude ≤ nl.location.radius
  · simp [checkGeofences, h, not_lt.mpr h]
  · simp [checkGeofences, h, not_le.mp h]

/-- The emission outcome never changes the result of
`handleGeofenceTriggered`: the id is inserted first, and the catch keeps it. -/
lemma handleGeofenceTriggered_eq (emit : String → EmitResult)
    (t : TriggeredNote) (st : Finset String) :
    handleGeofenceTriggered emit t st =
      if t.noteId ∈ st then (st, none)
      else (insert t.noteId st,
        some { noteId := t.noteId, noteTitle := t.noteTitle
               distance := t.distance }) := by
  unfold handleGeofenceTriggered
  cases emit t.noteId <;> rfl

/-- One pass at a position inside the single target's radius, starting from
an empty dedup set: the note id is added and one notification is emitted. -/
lemma pass_inside_fresh (emit : String → EmitResult) (note : Note)
    (loc : LocationData) (p : Coords)
    (hloc : note.location = some loc)
    (hin : calculateDistance p.latitude p.longitude loc.latitude
        loc.longitude ≤ loc.radius) :
    checkGeofencesForLocation emit p [note] ∅ =
      ({note.id},
       [{ noteId := note.id, noteTitle := note.title
          distance := jsRound (calculateDistance p.latitude p.longitude
            loc.latitude loc.longitude) }]) := by
  simp [checkGeofencesForLocation, hloc, checkGeofences, hin,
    processTriggered, handleGeofenceTriggered_eq, Finset.filter_eq']

/-- One pass at a position inside the single target's radius, with the note
id already in the dedup set: nothing is emitted and the set is unchanged. -/
lemma pass_inside_already (emit : String → EmitResult) (note : Note)
    (loc : LocationData) (p : Coords)
    (hloc : note.location = some loc)
    (hin : calculateDistance p.latitude p.longitude loc.latitude
        loc.longitude ≤ loc.radius) :
    checkGeofencesForLocation emit p [note] {note.id} =
      ({note.id}, []) := by
  simp [checkGeofencesForLocation, hloc, checkGeofences, hin,
    processTriggered, handleGeofenceTriggered_eq, Finset.filter_eq']

/-- One pass at a position outside the single target's radius: nothing is
emitted and the note id is removed from the dedup set. -/
lemma pass_outside (emit : String → EmitResult) (note : Note)
    (loc : LocationData) (p : Coords)
    (hloc : note.location = some loc)
    (hout : loc.radius < calculateDistance p.latitude p.longitude
        loc.latitude loc.longitude) :
    checkGeofencesForLocation emit p [note] {note.id} = (∅, []) := by
  simp [checkGeofencesForLocation, hloc, checkGeofences,
    not_le.mpr hout, processTriggered, handleGeofenceTriggered_eq]

/-- C1: with a single geofence target, evaluating the position sequence
[inside, inside, outside, inside] from an empty dedup set emits exactly two
proximity notifications — one for each distinct entry: the second
consecutive inside pass is suppressed, the outside pass clears the dedup
entry, and the re-entry notifies again, leaving the id in the dedup set. -/
theorem runPasses_two_entries_two_emissions (emit : String → EmitResult)
    (note : Note) (loc : LocationData) (pIn pOut : Coords)
    (hloc : note.location = some loc)
    (hin : calculateDistance pIn.latitude pIn.longitude loc.latitude
        loc.longitude ≤ loc.radius)
    (hout : loc.radius < calculateDistance pOut.latitude pOut.longitude
        loc.latitude loc.longitude) :
    (runPasses emit [note] [pIn, pIn, pOut, pIn] ∅).2 =
      [{ noteId := note.id, noteTitle := note.title
         distance := jsRound (calculateDistance pIn.latitude pIn.longitude
           loc.latitude loc.longitude) },
       { noteId := note.id, noteTitle := note.title
         distance := jsRound (calculateDistance pIn.latitude pIn.longitude
           loc.latitude loc.longitude) }] ∧
    (runPasses emit [note] [pIn, pIn, pOut, pIn] ∅).1 = {note.id} := by
  have hA := pass_inside_fresh emit note loc pIn hloc hin
  have hB := pass_inside_already emit note loc pIn hloc hin
  have hC := pass_outside emit note loc pOut hloc hout
  simp [runPasses, hA, hB, hC]

/-- Witness for C1: the note "note-1" with a 50 m geofence at (0,0); the
inside position is the center itself (distance 0) and the outside position
is (0,180), at distance 6371000·π m; the four passes emit exactly two
notifications. -/
theorem runPasses_two_entries_two_emissions_witness :
    noteW.location = some locW ∧
    calculateDistance 0 0 0 0 ≤ (50 : ℝ) ∧
    (50 : ℝ) < calculateDistance 0 180 0 0 ∧
    ((runPasses emitW [noteW] [pInW, pInW, pOutW, pInW] ∅).2 =
      [{ noteId := "note-1", noteTitle := "Groceries"
         distance := jsRound (calculateDistance 0 0 0 0) },
       { noteId := "note-1", noteTitle := "Groceries"
         distance := jsRound (calculateDistance 0 0 0 0) }] ∧
     (runPasses emitW [noteW] [pInW, pInW, pOutW, pInW] ∅).1 =
       ({"note-1"} : Finset String)) := by
  have hin : calculateDistance 0 0 0 0 ≤ (50 : ℝ) := by
    rw [calculateDistance_self]
    norm_num
  have hout : (50 : ℝ) < calculateDistance 0 180 0 0 := by
    rw [calculateDistance_antipode]
    nlinarith [Real.pi_gt_three]
  exact ⟨rfl, hin, hout,
    runPasses_two_entries_two_emissions emitW noteW locW pInW pOutW rfl
      hin hout⟩

end MobileNoteApp
